import Mathlib

/-!
Verification of the MPSC channel described in spec.md against
src/src/traits/mpsc.rs.

The source file declares the public surface (SendError, Sender, ReceiveError,
Receiver, channel) but leaves every operation body as an unimplemented stub.
The error types and the stub operations are embedded directly from the source;
the channel behaviour itself is modelled from the spec, as noted on each
definition.
-/

namespace Mpsc

/-- The ReceiveError enum declared in src/src/traits/mpsc.rs: two leaf
variants, Empty and Closed. -/
inductive ReceiveError
  | Empty
  | Closed
deriving DecidableEq, Repr

/-- The SendError struct declared in src/src/traits/mpsc.rs: carries the
rejected value back to the caller. -/
structure SendError (T : Type) where
  value : T
deriving DecidableEq, Repr

/-- The thiserror derive on SendError in src/src/traits/mpsc.rs has no
source or from attribute on any field, so the generated Error source
method returns None for every value. -/
def SendError.source (_e : SendError T) : Option Unit := none

/-- The thiserror derive on ReceiveError in src/src/traits/mpsc.rs has no
source or from attribute on either variant, so the generated Error source
method returns None for every value. -/
def ReceiveError.source (_e : ReceiveError) : Option Unit := none

/-- Modelled from the spec: the Shared Channel State (section 3 of spec.md) —
the FIFO queue, the live-sender count, and the closed flag. The operation
bodies are missing from src/src/traits/mpsc.rs. -/
structure Channel (T : Type) where
  queue : List T
  sender_count : Nat
  closed : Bool
deriving DecidableEq, Repr

/-- Modelled from the spec: the factory creates a fresh state with
sender_count 1 and closed false (section 6). The body of channel() is
missing from src/src/traits/mpsc.rs. -/
def channelNew (T : Type) : Channel T :=
  { queue := [], sender_count := 1, closed := false }

/-- Modelled from the spec: Sender send (section 4.2). If closed, returns
SendError carrying the value and leaves the state alone; otherwise appends
the value to the tail of the queue. The body is missing from
src/src/traits/mpsc.rs. -/
def send (st : Channel T) (v : T) : Except (SendError T) Unit × Channel T :=
  if st.closed then (Except.error ⟨v⟩, st)
  else (Except.ok (), { st with queue := st.queue ++ [v] })

/-- Modelled from the spec: Receiver recv (section 4.3). A non-empty queue
yields its head regardless of closed; an empty queue yields Empty when open
and Closed when closed. The body is missing from src/src/traits/mpsc.rs. -/
def recv (st : Channel T) : Except ReceiveError T × Channel T :=
  match st.queue with
  | [] =>
    (Except.error (if st.closed then ReceiveError.Closed else ReceiveError.Empty), st)
  | x :: rest => (Except.ok x, { st with queue := rest })

/-- Modelled from the spec: Receiver close sets closed to true
unconditionally (section 4.3). The body is missing from
src/src/traits/mpsc.rs. -/
def close (st : Channel T) : Channel T := { st with closed := true }

/-- Modelled from the spec: Sender is_closed reads the closed flag
(section 4.2). The body is missing from src/src/traits/mpsc.rs. -/
def is_closed (st : Channel T) : Bool := st.closed

/-- Modelled from the spec: cloning a Sender increments sender_count and
never touches the queue (section 4.2). The body is missing from
src/src/traits/mpsc.rs. -/
def cloneSender (st : Channel T) : Channel T :=
  { st with sender_count := st.sender_count + 1 }

/-- Modelled from the spec: dropping a Sender decrements sender_count and,
if the result is 0, sets closed to true (section 4.2). The body is missing
from src/src/traits/mpsc.rs. -/
def dropSender (st : Channel T) : Channel T :=
  { st with sender_count := st.sender_count - 1,
            closed := if st.sender_count - 1 = 0 then true else st.closed }

/-- Modelled from the spec: dropping the Receiver has the same effect as
close (section 4.3). The body is missing from src/src/traits/mpsc.rs. -/
def dropReceiver (st : Channel T) : Channel T := close st

/-- Modelled from the spec: dropping n Sender clones in sequence. -/
def dropSenderN : Nat → Channel T → Channel T
  | 0, st => st
  | Nat.succ n, st => dropSenderN n (dropSender st)

/-- One public operation on the shared state, used to state monotonicity of
the closed flag across every operation. -/
inductive Op (T : Type)
  | send (v : T)
  | recv
  | close
  | cloneSender
  | dropSender
  | dropReceiver

/-- The state reached after one operation. -/
def step (st : Channel T) : Op T → Channel T
  | Op.send v => (send st v).2
  | Op.recv => (recv st).2
  | Op.close => close st
  | Op.cloneSender => cloneSender st
  | Op.dropSender => dropSender st
  | Op.dropReceiver => dropReceiver st

/-- A producer-side event: a send of a value by some Sender handle, or a
clone of a Sender handle. All handles share the one state, so this models
an interleaving across any number of senders. -/
inductive ProdEvent (T : Type)
  | send (v : T)
  | clone

/-- Run a sequence of producer events against the shared state. -/
def runProd (st : Channel T) : List (ProdEvent T) → Channel T
  | [] => st
  | ProdEvent.send v :: evs => runProd (send st v).2 evs
  | ProdEvent.clone :: evs => runProd (cloneSender st) evs

/-- The values sent, in completion order, of a producer event sequence. -/
def sentValues : List (ProdEvent T) → List T
  | [] => []
  | ProdEvent.send v :: evs => v :: sentValues evs
  | ProdEvent.clone :: evs => sentValues evs

/-- Poll recv n times, collecting the successfully received values in
order; stop early on an error. -/
def recvN : Nat → Channel T → List T × Channel T
  | 0, st => ([], st)
  | Nat.succ n, st =>
    match recv st with
    | (Except.ok x, st') =>
      let p := recvN n st'
      (x :: p.1, p.2)
    | (Except.error _, st') => ([], st')

/-- A Sender handle carries a reference to one shared state instance;
same-channel identity is identity of that instance (section 3 of spec.md).
Instances are named by allocation number. -/
structure SenderHandle where
  chanId : Nat
deriving DecidableEq, Repr

/-- The Receiver handle's reference to its shared state instance. -/
structure ReceiverHandle where
  chanId : Nat
deriving DecidableEq, Repr

/-- Modelled from the spec: the factory allocates a fresh shared state and
binds one Sender and one Receiver to it; the third component is the next
fresh allocation number. The body of channel() is missing from
src/src/traits/mpsc.rs. -/
def channelAlloc (fresh : Nat) : SenderHandle × ReceiverHandle × Nat :=
  (⟨fresh⟩, ⟨fresh⟩, fresh + 1)

/-- Modelled from the spec: cloning yields a new handle to the same shared
state instance. -/
def SenderHandle.cloneHandle (s : SenderHandle) : SenderHandle := ⟨s.chanId⟩

/-- Modelled from the spec: same_channel is true iff both handles reference
the identical shared state instance. The body is missing from
src/src/traits/mpsc.rs. -/
def SenderHandle.same_channel (s o : SenderHandle) : Bool := s.chanId == o.chanId

/-- The outcome of running a Rust function body that is the unimplemented
macro: a panic. -/
inductive PanicKind
  | unimplemented
deriving DecidableEq, Repr

/-- The Sender struct as declared in src/src/traits/mpsc.rs: its field list
is still the TODO placeholder, so it has no fields. -/
structure SrcSender (T : Type)

/-- The Receiver struct as declared in src/src/traits/mpsc.rs: its field
list is still the TODO placeholder, so it has no fields. -/
structure SrcReceiver (T : Type)

/-- Sender send as written in src/src/traits/mpsc.rs: the body is the
unimplemented macro, so every call panics instead of returning a Result. -/
def SrcSender.send (_s : SrcSender T) (_v : T) :
    Except PanicKind (Except (SendError T) Unit) :=
  Except.error PanicKind.unimplemented

/-- Sender is_closed as written in src/src/traits/mpsc.rs: the body is the
unimplemented macro, so every call panics. -/
def SrcSender.is_closed (_s : SrcSender T) : Except PanicKind Bool :=
  Except.error PanicKind.unimplemented

/-- Sender same_channel as written in src/src/traits/mpsc.rs: the body is
the unimplemented macro, so every call panics. -/
def SrcSender.same_channel (_s _o : SrcSender T) : Except PanicKind Bool :=
  Except.error PanicKind.unimplemented

/-- The Clone impl for Sender as written in src/src/traits/mpsc.rs: the
body is the unimplemented macro, so every call panics. -/
def SrcSender.clone (_s : SrcSender T) : Except PanicKind (SrcSender T) :=
  Except.error PanicKind.unimplemented

/-- The Drop impl for Sender as written in src/src/traits/mpsc.rs: the body
is the unimplemented macro, so every call panics. -/
def SrcSender.drop (_s : SrcSender T) : Except PanicKind Unit :=
  Except.error PanicKind.unimplemented

/-- Receiver recv as written in src/src/traits/mpsc.rs: the body is the
unimplemented macro, so every call panics. -/
def SrcReceiver.recv (_r : SrcReceiver T) :
    Except PanicKind (Except ReceiveError T) :=
  Except.error PanicKind.unimplemented

/-- Receiver close as written in src/src/traits/mpsc.rs: the body is the
unimplemented macro, so every call panics. -/
def SrcReceiver.close (_r : SrcReceiver T) : Except PanicKind Unit :=
  Except.error PanicKind.unimplemented

/-- The Drop impl for Receiver as written in src/src/traits/mpsc.rs: the
body is the unimplemented macro, so every call panics. -/
def SrcReceiver.drop (_r : SrcReceiver T) : Except PanicKind Unit :=
  Except.error PanicKind.unimplemented

/-- The channel factory as written in src/src/traits/mpsc.rs: the body is
the unimplemented macro, so every call panics. -/
def srcChannel (T : Type) : Except PanicKind (SrcSender T × SrcReceiver T) :=
  Except.error PanicKind.unimplemented

/-! ### Helper lemmas shared by the claim theorems -/

theorem send_open (st : Channel T) (v : T) (h : st.closed = false) :
    send st v = (Except.ok (), { st with queue := st.queue ++ [v] }) := by
  simp [send, h]

theorem send_when_closed (st : Channel T) (v : T) (h : st.closed = true) :
    send st v = (Except.error ⟨v⟩, st) := by
  simp [send, h]

theorem recvN_drain (q : List T) :
    ∀ st : Channel T, st.queue = q → (recvN q.length st).1 = q := by
  induction q with
  | nil => intro st _; simp [recvN]
  | cons x rest ih =>
    intro st hq
    have hrecv : recv st = (Except.ok x, { st with queue := rest }) := by
      simp [recv, hq]
    simp only [List.length_cons, recvN, hrecv]
    simp [ih { st with queue := rest } rfl]

theorem runProd_open (evs : List (ProdEvent T)) :
    ∀ st : Channel T, st.closed = false →
      (runProd st evs).queue = st.queue ++ sentValues evs ∧
      (runProd st evs).closed = false := by
  induction evs with
  | nil => intro st h; simp [runProd, sentValues, h]
  | cons ev evs ih =>
    intro st h
    cases ev with
    | send v =>
      have hsend := send_open st v h
      have hstep : (send st v).2 = { st with queue := st.queue ++ [v] } := by
        rw [hsend]
      have := ih { st with queue := st.queue ++ [v] } (by simp [h])
      simp [runProd, hstep, sentValues, this.1, this.2]
    | clone =>
      have := ih (cloneSender st) (by simp [cloneSender, h])
      simp only [runProd, sentValues]
      refine ⟨?_, this.2⟩
      rw [this.1]
      simp [cloneSender]

theorem dropSenderN_queue (n : Nat) :
    ∀ st : Channel T, (dropSenderN n st).queue = st.queue := by
  induction n with
  | zero => intro st; simp [dropSenderN]
  | succ n ih => intro st; simp [dropSenderN, ih, dropSender]

theorem dropSenderN_all_closed (n : Nat) (hn : 0 < n) :
    ∀ st : Channel T, st.sender_count = n → (dropSenderN n st).closed = true := by
  induction n with
  | zero => exact absurd hn (by simp)
  | succ n ih =>
    intro st hc
    cases n with
    | zero =>
      have h1 : (dropSender st).closed = true := by
        simp [dropSender, hc]
      simp [dropSenderN, h1]
    | succ m =>
      have hdrop : (dropSender st).sender_count = m + 1 := by
        simp [dropSender, hc]
      have hrec := ih (by omega) (dropSender st) hdrop
      simpa [dropSenderN] using hrec

theorem dropSenderN_some_open (k : Nat) :
    ∀ st : Channel T, st.closed = false → k < st.sender_count →
      (dropSenderN k st).closed = false := by
  induction k with
  | zero => intro st h _; simpa [dropSenderN] using h
  | succ k ih =>
    intro st h hk
    have hpos : 1 < st.sender_count := by omega
    have hclosed : (dropSender st).closed = false := by
      simp only [dropSender]
      have : ¬ st.sender_count - 1 = 0 := by omega
      simp [this, h]
    have hcount : k < (dropSender st).sender_count := by
      simp only [dropSender]
      omega
    simpa [dropSenderN] using ih (dropSender st) hclosed hcount

/-! ### Claim theorems -/

/-- C1: recv returns the head of a non-empty queue regardless of the closed
flag, ReceiveError.Empty on an empty open channel, and ReceiveError.Closed
on an empty closed channel. -/
theorem recv_spec (T : Type) (st : Channel T) :
    (∀ x rest, st.queue = x :: rest →
      recv st = (Except.ok x, { st with queue := rest })) ∧
    (st.queue = [] → st.closed = false →
      recv st = (Except.error ReceiveError.Empty, st)) ∧
    (st.queue = [] → st.closed = true →
      recv st = (Except.error ReceiveError.Closed, st)) := by
  refine ⟨?_, ?_, ?_⟩
  · intro x rest hq; simp [recv, hq]
  · intro hq hc; simp [recv, hq, hc]
  · intro hq hc; simp [recv, hq, hc]

/-- Witness for C1: recv evaluated on three concrete channel states, one
per branch of the specification. -/
theorem recv_spec_witness :
    recv ({ queue := [1, 2], sender_count := 1, closed := true } : Channel Nat) =
      (Except.ok 1, { queue := [2], sender_count := 1, closed := true }) ∧
    recv ({ queue := [], sender_count := 1, closed := false } : Channel Nat) =
      (Except.error ReceiveError.Empty,
        { queue := [], sender_count := 1, closed := false }) ∧
    recv ({ queue := [], sender_count := 0, closed := true } : Channel Nat) =
      (Except.error ReceiveError.Closed,
        { queue := [], sender_count := 0, closed := true }) :=
  ⟨(recv_spec Nat { queue := [1, 2], sender_count := 1, closed := true }).1 1 [2] rfl,
   (recv_spec Nat { queue := [], sender_count := 1, closed := false }).2.1 rfl rfl,
   (recv_spec Nat { queue := [], sender_count := 0, closed := true }).2.2 rfl rfl⟩

/-- C2: on a closed channel send returns the value back inside the error
and leaves the state unchanged; on an open channel it appends the value to
the tail of the queue and succeeds, for every queue length. -/
theorem send_spec (T : Type) (st : Channel T) (v : T) :
    (st.closed = true → send st v = (Except.error ⟨v⟩, st)) ∧
    (st.closed = false →
      send st v = (Except.ok (), { st with queue := st.queue ++ [v] })) := by
  exact ⟨send_when_closed st v, send_open st v⟩

/-- Witness for C2: send evaluated on a concrete closed state and a
concrete open state. -/
theorem send_spec_witness :
    send ({ queue := [7], sender_count := 1, closed := true } : Channel Nat) 5 =
      (Except.error ⟨5⟩, { queue := [7], sender_count := 1, closed := true }) ∧
    send ({ queue := [7], sender_count := 1, closed := false } : Channel Nat) 5 =
      (Except.ok (), { queue := [7, 5], sender_count := 1, closed := false }) :=
  ⟨(send_spec Nat { queue := [7], sender_count := 1, closed := true } 5).1 rfl,
   (send_spec Nat { queue := [7], sender_count := 1, closed := false } 5).2 rfl⟩

/-- C3: for any interleaving of sends and clones across any number of
Sender handles starting from an open channel, the queue holds exactly the
previously queued values followed by the sent values in completion order,
and polling recv until drained returns that sequence with no reordering,
loss, or duplication. -/
theorem fifo_spec (T : Type) (st : Channel T) (evs : List (ProdEvent T))
    (h : st.closed = false) :
    (runProd st evs).queue = st.queue ++ sentValues evs ∧
    (recvN (st.queue ++ sentValues evs).length (runProd st evs)).1 =
      st.queue ++ sentValues evs := by
  have h1 := runProd_open evs st h
  exact ⟨h1.1, recvN_drain _ _ h1.1⟩

/-- Witness for C3: two sends interleaved with a clone on a fresh channel
are drained in send order. -/
theorem fifo_spec_witness :
    (runProd (channelNew Nat)
        [ProdEvent.send 1, ProdEvent.clone, ProdEvent.send 2]).queue = [1, 2] ∧
    (recvN 2 (runProd (channelNew Nat)
        [ProdEvent.send 1, ProdEvent.clone, ProdEvent.send 2])).1 = [1, 2] := by
  have h := fifo_spec Nat (channelNew Nat)
      [ProdEvent.send 1, ProdEvent.clone, ProdEvent.send 2] rfl
  simpa [channelNew, sentValues] using h

/-- C4: every public channel operation as written in the source — send,
is_closed, same_channel, the Clone and Drop impls for Sender, recv, close,
the Drop impl for Receiver, and the channel factory — is an unimplemented
stub that panics on every input instead of returning a value. -/
theorem stubs_spec (T : Type) :
    (∀ (s : SrcSender T) (v : T),
      s.send v = Except.error PanicKind.unimplemented) ∧
    (∀ s : SrcSender T, s.is_closed = Except.error PanicKind.unimplemented) ∧
    (∀ s o : SrcSender T,
      s.same_channel o = Except.error PanicKind.unimplemented) ∧
    (∀ s : SrcSender T, s.clone = Except.error PanicKind.unimplemented) ∧
    (∀ s : SrcSender T, s.drop = Except.error PanicKind.unimplemented) ∧
    (∀ r : SrcReceiver T, r.recv = Except.error PanicKind.unimplemented) ∧
    (∀ r : SrcReceiver T, r.close = Except.error PanicKind.unimplemented) ∧
    (∀ r : SrcReceiver T, r.drop = Except.error PanicKind.unimplemented) ∧
    srcChannel T = Except.error PanicKind.unimplemented :=
  ⟨fun _ _ => rfl, fun _ => rfl, fun _ _ => rfl, fun _ => rfl, fun _ => rfl,
   fun _ => rfl, fun _ => rfl, fun _ => rfl, rfl⟩

/-- C5: once the closed flag is true, every operation leaves it true, and
once recv returns ReceiveError.Closed the unchanged state makes every later
recv return ReceiveError.Closed again. -/
theorem closed_monotonic (T : Type) (st : Channel T) (h : st.closed = true) :
    (∀ op : Op T, (step st op).closed = true) ∧
    (∀ st', recv st = (Except.error ReceiveError.Closed, st') →
      recv st' = (Except.error ReceiveError.Closed, st')) := by
  constructor
  · intro op
    cases op with
    | send v => simp [step, send, h]
    | recv =>
      cases hq : st.queue with
      | nil => simp [step, recv, hq, h]
      | cons x rest => simp [step, recv, hq, h]
    | close => simp [step, close]
    | cloneSender => simp [step, cloneSender, h]
    | dropSender => simp [step, dropSender, h]
    | dropReceiver => simp [step, dropReceiver, close]
  · intro st' hrecv
    cases hq : st.queue with
    | nil =>
      have hst : st = st' := by
        simpa [recv, hq, h] using hrecv
      subst hst
      simp [recv, hq, h]
    | cons x rest => simp [recv, hq] at hrecv

/-- Witness for C5: a drained closed channel stays closed across an
operation and keeps answering ReceiveError.Closed. -/
theorem closed_monotonic_witness :
    (step ({ queue := [], sender_count := 0, closed := true } : Channel Nat)
        (Op.send 3)).closed = true ∧
    recv ({ queue := [], sender_count := 0, closed := true } : Channel Nat) =
      (Except.error ReceiveError.Closed,
        { queue := [], sender_count := 0, closed := true }) := by
  have h := closed_monotonic Nat
      { queue := [], sender_count := 0, closed := true } rfl
  exact ⟨h.1 (Op.send 3),
    h.2 { queue := [], sender_count := 0, closed := true } rfl⟩

/-- C6: dropping a Sender decrements sender_count by exactly one and closes
the channel exactly when the count reaches 0; cloning increments the count
and never touches the queue; dropping all N clones makes recv on the
drained queue answer ReceiveError.Closed, while dropping fewer than N
leaves the channel open. -/
theorem sender_lifecycle_spec (T : Type) (st : Channel T) :
    ((dropSender st).sender_count = st.sender_count - 1) ∧
    (st.closed = false → 0 < st.sender_count →
      ((dropSender st).closed = true ↔ st.sender_count = 1)) ∧
    ((cloneSender st).sender_count = st.sender_count + 1 ∧
      (cloneSender st).queue = st.queue) ∧
    (st.closed = false → st.queue = [] → 0 < st.sender_count →
      recv (dropSenderN st.sender_count st) =
        (Except.error ReceiveError.Closed, dropSenderN st.sender_count st)) ∧
    (∀ k, st.closed = false → k < st.sender_count →
      (dropSenderN k st).closed = false) := by
  refine ⟨rfl, ?_, ⟨rfl, rfl⟩, ?_, ?_⟩
  · intro h hpos
    rw [dropSender]
    simp [h]
    omega
  · intro h hq hpos
    have hclosed := dropSenderN_all_closed st.sender_count hpos st rfl
    have hqueue : (dropSenderN st.sender_count st).queue = [] := by
      rw [dropSenderN_queue]; exact hq
    simp [recv, hqueue, hclosed]
  · intro k h hk
    exact dropSenderN_some_open k st h hk

/-- Witness for C6: with two live senders, dropping one leaves the channel
open and dropping both closes it, making recv report ReceiveError.Closed. -/
theorem sender_lifecycle_witness :
    ((dropSender ({ queue := [], sender_count := 2, closed := false } :
        Channel Nat)).closed = true ↔
      ({ queue := [], sender_count := 2, closed := false } :
        Channel Nat).sender_count = 1) ∧
    recv (dropSenderN 2
        ({ queue := [], sender_count := 2, closed := false } : Channel Nat)) =
      (Except.error ReceiveError.Closed,
        dropSenderN 2 { queue := [], sender_count := 2, closed := false }) ∧
    (dropSenderN 1
        ({ queue := [], sender_count := 2, closed := false } :
          Channel Nat)).closed = false := by
  have h := sender_lifecycle_spec Nat
      { queue := [], sender_count := 2, closed := false }
  exact ⟨h.2.1 rfl (by decide), h.2.2.2.1 rfl rfl (by decide),
    h.2.2.2.2 1 rfl (by decide)⟩

/-- C7: close sets the closed flag unconditionally and is idempotent,
dropping the Receiver has the same effect, every already-queued value stays
retrievable until the queue is drained after which recv reports
ReceiveError.Closed, is_closed then reads true, and every subsequent send
fails with the sent value inside the error. -/
theorem close_spec (T : Type) (st : Channel T) (v : T) :
    (close st).closed = true ∧
    close (close st) = close st ∧
    dropReceiver st = close st ∧
    is_closed (close st) = true ∧
    send (close st) v = (Except.error ⟨v⟩, close st) ∧
    (recvN st.queue.length (close st)).1 = st.queue ∧
    (st.queue = [] →
      recv (close st) = (Except.error ReceiveError.Closed, close st)) := by
  refine ⟨rfl, rfl, rfl, rfl, ?_, ?_, ?_⟩
  · exact send_when_closed (close st) v rfl
  · exact recvN_drain st.queue (close st) rfl
  · intro hq; simp [recv, close, hq]

/-- Witness for C7: on concrete states, a closed channel rejects a send
with the value returned, still delivers the queued value, and reports
ReceiveError.Closed once drained. -/
theorem close_spec_witness :
    send (close ({ queue := [4], sender_count := 1, closed := false } :
        Channel Nat)) 9 =
      (Except.error ⟨9⟩,
        close { queue := [4], sender_count := 1, closed := false }) ∧
    (recvN 1 (close ({ queue := [4], sender_count := 1, closed := false } :
        Channel Nat))).1 = [4] ∧
    recv (close ({ queue := [], sender_count := 1, closed := false } :
        Channel Nat)) =
      (Except.error ReceiveError.Closed,
        close { queue := [], sender_count := 1, closed := false }) :=
  ⟨(close_spec Nat { queue := [4], sender_count := 1, closed := false }
      9).2.2.2.2.1,
   (close_spec Nat { queue := [4], sender_count := 1, closed := false }
      9).2.2.2.2.2.1,
   (close_spec Nat { queue := [], sender_count := 1, closed := false }
      9).2.2.2.2.2.2 rfl⟩

/-- C8: same_channel is true exactly when both handles reference the
identical shared state instance; a clone always matches its original, and
the senders of two independently allocated channels never match in either
order. -/
theorem same_channel_spec :
    (∀ s o : SenderHandle, s.same_channel o = true ↔ s.chanId = o.chanId) ∧
    (∀ s : SenderHandle, s.cloneHandle.same_channel s = true) ∧
    (∀ fresh : Nat,
      (channelAlloc fresh).1.same_channel
          (channelAlloc (channelAlloc fresh).2.2).1 = false ∧
      (channelAlloc (channelAlloc fresh).2.2).1.same_channel
          (channelAlloc fresh).1 = false) := by
  refine ⟨?_, ?_, ?_⟩
  · intro s o
    simp [SenderHandle.same_channel]
  · intro s
    simp [SenderHandle.cloneHandle, SenderHandle.same_channel]
  · intro fresh
    constructor <;> simp [channelAlloc, SenderHandle.same_channel]

/-- C9: every error value is a leaf whose source is None, and send and recv
always return a Result value to the caller — success or one of the two
error variants — never a panic. -/
theorem error_leaf_spec (T : Type) (st : Channel T) (v : T) :
    (∀ e : SendError T, e.source = none) ∧
    (∀ e : ReceiveError, e.source = none) ∧
    ((send st v).1 = Except.ok () ∨ (send st v).1 = Except.error ⟨v⟩) ∧
    ((∃ x, (recv st).1 = Except.ok x) ∨
      (∃ e, (recv st).1 = Except.error e)) := by
  refine ⟨fun _ => rfl, fun _ => rfl, ?_, ?_⟩
  · by_cases h : st.closed = true
    · right; rw [send_when_closed st v h]
    · left
      rw [send_open st v (by simpa using h)]
  · cases hq : st.queue with
    | nil =>
      right
      exact ⟨if st.closed then ReceiveError.Closed else ReceiveError.Empty,
        by simp [recv, hq]⟩
    | cons x rest => left; exact ⟨x, by simp [recv, hq]⟩

end Mpsc
